import Mathlib

/-!
Shallow embedding of the Revenium metering middleware for goa-ai
(`revenium` Go package): trace registry, trace-resolution protocol,
retry dispatcher, and the client / sink decorators.

Conventions of the embedding:
* Go strings are `String`, Go `int` is `Int`, Go `bool` is `Bool`.
* The `sync.Map` trace registry is an association list with at most one
  entry per key (Store overwrites).
* `context.Context` is modelled by the slice of it the code reads and
  writes: the ambient `TraceContext` slot (`Ctx`).
* `uuid.New().String()` is modelled by explicit `fresh…` string
  parameters supplied by the environment.
* The logger is a list of `(level, message)` entries threaded through
  the `Meter` state.
-/

namespace Revenium

/-- Log levels of the package logger (logger.go). -/
inductive LogLevel where
  | debug
  | info
  | warn
  | error
deriving DecidableEq, Repr

/-- One emitted log record. -/
structure LogEntry where
  level : LogLevel
  msg : String
deriving DecidableEq, Repr

/-- TraceContext carries correlation and metering metadata through context
(trace_context.go). -/
structure TraceContext where
  traceID : String := ""
  traceName : String := ""
  traceType : String := ""
  transactionID : String := ""
  parentTxnID : String := ""
  squad : String := ""
deriving DecidableEq, Repr

/-- The slice of `context.Context` the middleware reads and writes: the
ambient `TraceContext` value slot. -/
structure Ctx where
  trace : Option TraceContext := none
deriving DecidableEq, Repr

/-- `GetTraceContext` retrieves the TraceContext from the context, or
`none` if not set (trace_context.go). -/
def GetTraceContext (c : Ctx) : Option TraceContext :=
  c.trace

/-- `WithTraceContext` stores a (shallow copy of a) TraceContext in the
context; if its TraceID is empty a fresh UUID (`fresh`) is minted
(trace_context.go). -/
def WithTraceContext (fresh : String) (c : Ctx) (tc : TraceContext) : Ctx :=
  let tcCopy := if tc.traceID = "" then { tc with traceID := fresh } else tc
  { c with trace := some tcCopy }

/-- Meter state: the `sync.Map` trace registry (`runID → traceID`,
association list with at most one entry per key) and the log emitted so
far (metering.go). -/
structure Meter where
  traces : List (String × String) := []
  log : List LogEntry := []
deriving DecidableEq, Repr

/-- Append a debug-level log record. -/
def Meter.logDebug (m : Meter) (msg : String) : Meter :=
  { m with log := m.log ++ [⟨LogLevel.debug, msg⟩] }

/-- Append a warning-level log record. -/
def Meter.logWarn (m : Meter) (msg : String) : Meter :=
  { m with log := m.log ++ [⟨LogLevel.warn, msg⟩] }

/-- `sync.Map.Store` on the registry representation: overwrite the entry
for `k`, keeping at most one entry per key. -/
def storeEntry (ts : List (String × String)) (k v : String) :
    List (String × String) :=
  (k, v) :: ts.filter (fun p => p.1 ≠ k)

/-- `sync.Map.Delete` on the registry representation. -/
def deleteEntry (ts : List (String × String)) (k : String) :
    List (String × String) :=
  ts.filter (fun p => p.1 ≠ k)

/-- `RegisterTrace` stores the traceID associated with a run
(`sync.Map.Store`: upsert) and logs at debug level (metering.go). -/
def Meter.RegisterTrace (m : Meter) (runID traceID : String) : Meter :=
  { m with
    traces := storeEntry m.traces runID traceID,
    log := m.log ++
      [⟨LogLevel.debug, "registered trace: run=" ++ runID ++ " trace=" ++ traceID⟩] }

/-- `LookupTrace` retrieves the traceID previously registered for runID;
Go's `(string, bool)` pair is an `Option` here (metering.go). -/
def Meter.LookupTrace (m : Meter) (runID : String) : Option String :=
  (m.traces.find? (fun p => p.1 = runID)).map (·.2)

/-- `UnregisterTrace` removes the trace mapping for a completed run
(metering.go). -/
def Meter.UnregisterTrace (m : Meter) (runID : String) : Meter :=
  { m with
    traces := deleteEntry m.traces runID,
    log := m.log ++ [⟨LogLevel.debug, "unregistered trace: run=" ++ runID⟩] }

/-- Allowed stopReason values per the Revenium API (metering.go). -/
def StopReasonEnd : String := "END"

/-- TOKEN_LIMIT stop reason constant (metering.go). -/
def StopReasonTokenLimit : String := "TOKEN_LIMIT"

/-- `MapStopReason` maps provider-specific stop reasons to Revenium's
enum values; the Go `switch` on a string is a chain of equality tests
(metering.go lines 85-100). -/
def MapStopReason (providerReason : String) : String :=
  if providerReason = "stop" ∨ providerReason = "end_turn" ∨
      providerReason = "complete" then StopReasonEnd
  else if providerReason = "tool_calls" ∨ providerReason = "tool_use" then
    StopReasonEnd
  else if providerReason = "length" ∨ providerReason = "max_tokens" then
    StopReasonTokenLimit
  else if providerReason = "content_filter" then StopReasonEnd
  else if providerReason = "" then StopReasonEnd
  else StopReasonEnd

/-- `DetectSquad` extracts the service prefix from an agent ID: the part
before the first `"."` when that dot exists at a positive index
(squad.go). -/
def DetectSquad (agentID : String) : String :=
  match agentID.splitOn "." with
  | first :: _ :: _ => if first = "" then agentID else first
  | _ => agentID

/-- `ResolveSquad` returns the configured squad override, or auto-detects
from the agent ID (squad.go); the config is represented by its `Squad`
field. -/
def ResolveSquad (cfgSquad agentID : String) : String :=
  if cfgSquad ≠ "" then cfgSquad else DetectSquad agentID

/-- The slice of `run.Context` the middleware reads: the run identifier
and the optional parent-run identifier. -/
structure RunCtx where
  RunID : String := ""
  ParentRunID : String := ""
deriving DecidableEq, Repr

/-- The straight-line tail of `MeteringPlanner.ensureTraceContext`
(planner.go lines 95-110), reached when no ambient TraceContext with a
non-empty TraceID exists; `tc` is the partially filled TraceContext built
at the top of the function, `freshA` models the `uuid.New().String()`
call inside this tail and `freshB` the one potentially made by
`WithTraceContext`. -/
def ensureTraceContextTail (freshA freshB : String) (ctx : Ctx) (m : Meter)
    (rc : RunCtx) (tc : TraceContext) : Ctx × Meter :=
  if rc.ParentRunID = "" then
    -- Top-level run: generate a new traceID and register it.
    let tc := { tc with traceID := freshA }
    let m := m.RegisterTrace rc.RunID tc.traceID
    (WithTraceContext freshB ctx tc, m)
  else
    -- Child run: inherit the parent's traceID and set ParentTxnID.
    let (tid, m) :=
      match m.LookupTrace rc.ParentRunID with
      | some parentTraceID => (parentTraceID, m)
      | none =>
        -- Fallback: parent trace not found, generate new traceID.
        (freshA, m.logWarn ("parent trace not found for run=" ++ rc.RunID ++
          " parent=" ++ rc.ParentRunID ++ ", generating new traceID"))
    let tc := { tc with traceID := tid, parentTxnID := rc.ParentRunID }
    let m := m.RegisterTrace rc.RunID tc.traceID
    (WithTraceContext freshB ctx tc, m)

/-- `MeteringPlanner.ensureTraceContext` (planner.go lines 74-113):
resolves the run's TraceContext, updates the trace registry, and returns
the context with the resulting TraceContext attached. `cfgSquad` and
`agentID` stand for `p.Meter.cfg.Squad` and `p.AgentID`. -/
def ensureTraceContext (freshA freshB cfgSquad agentID : String) (ctx : Ctx)
    (m : Meter) (rc : RunCtx) : Ctx × Meter :=
  let existing := GetTraceContext ctx
  let tc : TraceContext :=
    { traceType := "agent",
      transactionID := rc.RunID,
      squad := ResolveSquad cfgSquad agentID }
  match existing with
  | some ex =>
    if ex.traceID ≠ "" then
      -- Inherit the existing TraceID (allows shared tracing).
      let tc := { tc with traceID := ex.traceID, traceName := ex.traceName }
      let tc :=
        if rc.ParentRunID ≠ "" then { tc with parentTxnID := rc.ParentRunID }
        else tc
      let m := m.RegisterTrace rc.RunID tc.traceID
      (WithTraceContext freshB ctx tc, m)
    else
      ensureTraceContextTail freshA freshB ctx m rc tc
  | none => ensureTraceContextTail freshA freshB ctx m rc tc

/-- Stream events observed by `MeteringSink.Send` (sink.go); each carries
the fields the decorator reads. `runID` is the value of `e.RunID()`. -/
inductive Event where
  | toolStart (runID toolName toolCallID : String)
  | toolEnd (runID toolName toolCallID duration : String)
  | workflow (runID phase status : String)
  | childRunLinked (runID childAgentID childRunID toolCallID : String)
  | usage (runID modelName : String) (inputTokens outputTokens totalTokens : Int)
  | other (runID : String)
deriving DecidableEq, Repr

/-- `MeteringSink.Send` (sink.go lines 21-63). The inner sink is modelled
by its return value as a function of the event (`none` = nil error); a
nil `Meter` is `meter = none`. Returns the Meter state after the call
(unchanged `none` when nil) and the value returned to the caller. -/
def MeteringSinkSend (inner : Event → Option String) (ctx : Ctx)
    (meter : Option Meter) (e : Event) : Option Meter × Option String :=
  match meter with
  | none => (none, inner e)
  | some m =>
    let m :=
      match e with
      | Event.toolStart _ toolName toolCallID =>
        m.logDebug ("tool start: " ++ toolName ++ " (call_id=" ++ toolCallID ++ ")")
      | Event.toolEnd _ toolName toolCallID duration =>
        m.logDebug ("tool end: " ++ toolName ++ " (call_id=" ++ toolCallID ++
          ", duration=" ++ duration ++ ")")
      | Event.workflow runID phase status =>
        let m := m.logDebug ("workflow phase: " ++ phase ++ " (status=" ++ status ++ ")")
        -- Clean up trace registry on terminal workflow phases.
        if phase = "completed" ∨ phase = "failed" ∨ phase = "canceled" then
          m.UnregisterTrace runID
        else m
      | Event.childRunLinked runID childAgentID childRunID toolCallID =>
        let m := m.logDebug ("child run linked: agent=" ++ childAgentID ++
          " run=" ++ childRunID ++ " (parent_call=" ++ toolCallID ++ ")")
        -- Pre-register the child run's trace mapping so the child planner
        -- can inherit the parent's traceID before its PlanStart runs.
        match GetTraceContext ctx with
        | some tc =>
          let m := m.RegisterTrace childRunID tc.traceID
          m.logDebug ("pre-registered child trace: child_run=" ++ childRunID ++
            " trace=" ++ tc.traceID ++ " (parent_run=" ++ runID ++ ")")
        | none => m
      | Event.usage _ modelName inputTokens outputTokens totalTokens =>
        m.logDebug ("usage: model=" ++ modelName ++ " input=" ++ toString inputTokens ++
          " output=" ++ toString outputTokens ++ " total=" ++ toString totalTokens)
      | Event.other _ => m
    (some m, inner e)

/-- `model.TokenUsage`: token counters of the host runtime (Go `int`s). -/
structure TokenUsage where
  InputTokens : Int := 0
  OutputTokens : Int := 0
  TotalTokens : Int := 0
  CacheReadTokens : Int := 0
  CacheWriteTokens : Int := 0
deriving DecidableEq, Repr

/-- The slice of `model.Response` read by the decorator. -/
structure ModelResponse where
  Usage : TokenUsage := {}
  StopReason : String := ""
deriving DecidableEq, Repr

/-- `MeteringPayload` (metering.go lines 18-57), restricted to the fields
the decorators write; tenant and prompt-capture fields are filled later
by `SendAsync` / `populatePromptFields` and are not needed here. -/
structure MeteringPayload where
  Model : String := ""
  InputTokenCount : Int := 0
  OutputTokenCount : Int := 0
  TotalTokenCount : Int := 0
  StopReason : String := ""
  RequestTime : String := ""
  CompletionStartTime : String := ""
  ResponseTime : String := ""
  RequestDuration : Int := 0
  Provider : String := ""
  IsStreamed : Bool := false
  BillingUnit : String := ""
  TransactionID : String := ""
  TraceID : String := ""
  TraceName : String := ""
  TraceType : String := ""
  ParentTxnID : String := ""
  Agent : String := ""
  CacheReadTokenCount : Int := 0
  CacheCreationTokenCount : Int := 0
deriving DecidableEq, Repr

/-- `meteringClient.resolveModel` (model_client.go lines 77-82): the
request's model if set, else the registered model ID. -/
def resolveModel (reqModel modelID : String) : String :=
  if reqModel ≠ "" then reqModel else modelID

/-- Stamp the ambient TraceContext's correlation fields onto a payload
(model_client.go lines 55-65 and 160-170); no-op when the context has
none. -/
def stampTraceContext (ctx : Ctx) (p : MeteringPayload) : MeteringPayload :=
  match GetTraceContext ctx with
  | some tc =>
    { p with
      TraceID := tc.traceID
      TraceName := tc.traceName
      TraceType := tc.traceType
      TransactionID := tc.transactionID
      ParentTxnID := tc.parentTxnID }
  | none => p

/-- `meteringClient.Complete` (model_client.go lines 24-73). The inner
client is modelled by its result (`Except` error/response); wall-clock
readings are the environment inputs `startStr`, `endStr`, `durationMs`.
Returns the pair handed back to the caller and the payload submitted to
`SendAsync` (`none` when nothing is submitted). -/
def meteringComplete (modelID agentID provider reqModel : String) (ctx : Ctx)
    (startStr endStr : String) (durationMs : Int)
    (innerResult : Except String ModelResponse) :
    Except String ModelResponse × Option MeteringPayload :=
  match innerResult with
  | Except.error e => (Except.error e, none)
  | Except.ok resp =>
    let payload : MeteringPayload :=
      { Model := resolveModel reqModel modelID
        InputTokenCount := resp.Usage.InputTokens
        OutputTokenCount := resp.Usage.OutputTokens
        TotalTokenCount := resp.Usage.InputTokens + resp.Usage.OutputTokens
        StopReason := MapStopReason resp.StopReason
        RequestTime := startStr
        CompletionStartTime := startStr
        ResponseTime := endStr
        RequestDuration := durationMs
        Provider := provider
        IsStreamed := false
        BillingUnit := "PER_TOKEN"
        Agent := agentID
        CacheReadTokenCount := resp.Usage.CacheReadTokens
        CacheCreationTokenCount := resp.Usage.CacheWriteTokens }
    (Except.ok resp, some (stampTraceContext ctx payload))

/-- The slice of `model.Chunk` read by `meteringStreamer.Recv`. -/
structure Chunk where
  UsageDelta : Option TokenUsage := none
  StopReason : String := ""
deriving DecidableEq, Repr

/-- Mutable accumulator state of a `meteringStreamer`
(model_client.go lines 104-117): usage counters and last stop reason. -/
structure StreamAcc where
  usage : TokenUsage := {}
  stopReason : String := ""
deriving DecidableEq, Repr

/-- The state update performed by `meteringStreamer.Recv` on one received
chunk (model_client.go lines 119-133). -/
def recvStep (s : StreamAcc) (c : Chunk) : StreamAcc :=
  let s :=
    match c.UsageDelta with
    | some d =>
      { s with usage :=
        { s.usage with
          InputTokens := s.usage.InputTokens + d.InputTokens
          OutputTokens := s.usage.OutputTokens + d.OutputTokens
          TotalTokens := s.usage.TotalTokens + d.TotalTokens } }
    | none => s
  if c.StopReason ≠ "" then { s with stopReason := c.StopReason } else s

/-- Accumulator state after receiving a finite sequence of chunks,
starting from the zero-initialised streamer. -/
def recvAll (cs : List Chunk) : StreamAcc :=
  cs.foldl recvStep {}

/-- `meteringStreamer.Close` (model_client.go lines 135-181). `innerErr`
is the inner stream's Close result (`none` = nil). Returns the error
handed back to the caller and the payload submitted to `SendAsync`
(`none` when nothing is submitted). -/
def streamClose (modelID agentID provider : String) (ctx : Ctx)
    (startStr endStr : String) (durationMs : Int) (s : StreamAcc)
    (innerErr : Option String) : Option String × Option MeteringPayload :=
  if s.usage.InputTokens > 0 ∨ s.usage.OutputTokens > 0 then
    let payload : MeteringPayload :=
      { Model := modelID
        InputTokenCount := s.usage.InputTokens
        OutputTokenCount := s.usage.OutputTokens
        TotalTokenCount := s.usage.InputTokens + s.usage.OutputTokens
        StopReason := MapStopReason s.stopReason
        RequestTime := startStr
        CompletionStartTime := startStr
        ResponseTime := endStr
        RequestDuration := durationMs
        Provider := provider
        IsStreamed := true
        BillingUnit := "PER_TOKEN"
        Agent := agentID }
    (innerErr, some (stampTraceContext ctx payload))
  else
    (innerErr, none)

/-- How one `sendWithRetry` invocation ends (metering.go lines 188-220):
the marshal step failed, or the retry loop exited. -/
inductive RetryOutcome where
  | success
  | exhausted
  | canceledDuringWait
deriving DecidableEq, Repr

/-- Observable trace of the retry loop: number of `send` attempts
performed, the backoff waits (in the loop's time units, Go seconds)
actually slept, and how it ended. -/
structure RetryTrace where
  attempts : Nat
  waits : List Nat
  outcome : RetryOutcome
deriving DecidableEq, Repr

/-- Bound of the retry loop (metering.go line 199). -/
def maxRetries : Nat := 3

/-- The retry loop of `Meter.sendWithRetry` (metering.go lines 200-218),
structurally recursive on the number of loop iterations left
(`remaining = maxRetries + 1 - attempt`). `sendOk n` is whether the
`m.send` call of attempt `n` succeeds; `canceled n` is whether the
context's timeout fires during the wait preceding attempt `n`. Before
every attempt but the first the loop waits `backoff` and doubles it. -/
def retryLoop (sendOk canceled : Nat → Bool) :
    Nat → Nat → Nat → RetryTrace
  | 0, _, _ => ⟨0, [], RetryOutcome.exhausted⟩
  | remaining + 1, attempt, backoff =>
    if attempt > 0 ∧ canceled attempt then
      ⟨0, [], RetryOutcome.canceledDuringWait⟩
    else
      let waits := if attempt > 0 then [backoff] else []
      let backoff2 := if attempt > 0 then backoff * 2 else backoff
      if sendOk attempt then ⟨1, waits, RetryOutcome.success⟩
      else
        let r := retryLoop sendOk canceled remaining (attempt + 1) backoff2
        ⟨r.attempts + 1, waits ++ r.waits, r.outcome⟩

/-- Result of `Meter.sendWithRetry` as observed by `SendAsync`:
serialization error (returned immediately, no attempt), delivered, payload
dropped after the retry budget, or aborted by the context timeout. The
dropped and canceled outcomes return an error, which `SendAsync` logs. -/
inductive SendResult where
  | serializationError
  | delivered (attempts : Nat) (waits : List Nat)
  | dropped (attempts : Nat) (waits : List Nat)
  | canceled (attempts : Nat) (waits : List Nat)
deriving DecidableEq, Repr

/-- `Meter.sendWithRetry` (metering.go lines 188-220): `marshalOk` is
whether `json.Marshal` succeeds; on marshal failure the error is returned
immediately, otherwise the retry loop runs with `attempt = 0` and initial
backoff of 1 time-unit. -/
def sendWithRetry (marshalOk : Bool) (sendOk canceled : Nat → Bool) :
    SendResult :=
  if marshalOk then
    let t := retryLoop sendOk canceled (maxRetries + 1) 0 1
    match t.outcome with
    | RetryOutcome.success => SendResult.delivered t.attempts t.waits
    | RetryOutcome.exhausted => SendResult.dropped t.attempts t.waits
    | RetryOutcome.canceledDuringWait => SendResult.canceled t.attempts t.waits
  else
    SendResult.serializationError

/-! Helper lemmas shared by the claim theorems. -/

/-- Looking up the just-registered run returns the registered traceID. -/
theorem lookupTrace_registerTrace_self (m : Meter) (k v : String) :
    (m.RegisterTrace k v).LookupTrace k = some v := by
  simp [Meter.RegisterTrace, Meter.LookupTrace, storeEntry, List.find?]

/-- `RegisterTrace` only touches the registry and the log. -/
theorem registerTrace_traces (m : Meter) (k v : String) :
    (m.RegisterTrace k v).traces = storeEntry m.traces k v := rfl

/-- `logDebug` leaves the registry unchanged. -/
theorem logDebug_traces (m : Meter) (s : String) :
    (m.logDebug s).traces = m.traces := rfl

end Revenium

namespace Revenium

/-- C7: `MapStopReason` is total and maps `"length"` and `"max_tokens"`
to `"TOKEN_LIMIT"` and every other provider reason — in particular
`"stop"`, `"end_turn"`, `"complete"`, `"tool_calls"`, `"tool_use"`,
`"content_filter"` and the empty string — to the fail-open default
`"END"`, so a terminal reason is always produced. -/
theorem mapStopReason_closed_enum (r : String) :
    MapStopReason r =
      (if r = "length" ∨ r = "max_tokens" then StopReasonTokenLimit
       else StopReasonEnd) := by
  by_cases h : r = "length" ∨ r = "max_tokens"
  · rw [if_pos h]
    rcases h with h | h <;> subst h <;> rfl
  · rw [if_neg h]
    unfold MapStopReason
    split_ifs <;> rfl

/-- C4: decorators only ever return the inner, undecorated result.
`meteringClient.Complete` hands back exactly the inner client's
(response, error) — in particular an inner error is returned with no
response and no payload is submitted — and `MeteringSink.Send` returns
exactly the inner sink's return value, whatever the Meter state. -/
theorem decorators_return_inner_result :
    (∀ modelID agentID provider reqModel ctx startStr endStr durationMs
       innerResult,
       (meteringComplete modelID agentID provider reqModel ctx startStr
         endStr durationMs innerResult).1 = innerResult) ∧
    (∀ modelID agentID provider reqModel ctx startStr endStr durationMs err,
       meteringComplete modelID agentID provider reqModel ctx startStr
         endStr durationMs (Except.error err) = (Except.error err, none)) ∧
    (∀ inner ctx meter ev,
       (MeteringSinkSend inner ctx meter ev).2 = inner ev) := by
  refine ⟨?_, ?_, ?_⟩
  · intro modelID agentID provider reqModel ctx startStr endStr durationMs
      innerResult
    cases innerResult <;> rfl
  · intro modelID agentID provider reqModel ctx startStr endStr durationMs err
    rfl
  · intro inner ctx meter ev
    cases meter with
    | none => rfl
    | some m => cases ev <;> rfl

/-- C10: a child-run-linkage event arriving with no ambient TraceContext
leaves the trace registry unchanged (no entry is added under any key)
while the event is still forwarded to the inner sink. -/
theorem childRunLinked_no_context_frame (inner : Event → Option String)
    (m : Meter) (runID childAgentID childRunID toolCallID : String) :
    ∃ m',
      MeteringSinkSend inner ⟨none⟩ (some m)
        (Event.childRunLinked runID childAgentID childRunID toolCallID) =
        (some m',
         inner (Event.childRunLinked runID childAgentID childRunID toolCallID)) ∧
      m'.traces = m.traces :=
  ⟨_, rfl, rfl⟩

/-- C3: registry footprint of the event-observation decorator with a
configured Meter. A child-run-linkage event stores
`(childRunID → ambient TraceContext's TraceID)` (when an ambient
TraceContext exists); a workflow event whose phase is exactly
`"completed"`, `"failed"` or `"canceled"` deletes the owning run's entry;
every other event leaves the registry unchanged. -/
theorem meteringSinkSend_registry_footprint (inner : Event → Option String)
    (ctx : Ctx) (m : Meter) (ev : Event) :
    ∃ m',
      (MeteringSinkSend inner ctx (some m) ev).1 = some m' ∧
      m'.traces =
        (match ev with
         | Event.childRunLinked _ _ childRunID _ =>
           match GetTraceContext ctx with
           | some tc => storeEntry m.traces childRunID tc.traceID
           | none => m.traces
         | Event.workflow runID phase _ =>
           if phase = "completed" ∨ phase = "failed" ∨ phase = "canceled"
           then deleteEntry m.traces runID
           else m.traces
         | _ => m.traces) := by
  obtain ⟨tr⟩ := ctx
  cases ev with
  | toolStart runID toolName toolCallID => exact ⟨_, rfl, rfl⟩
  | toolEnd runID toolName toolCallID duration => exact ⟨_, rfl, rfl⟩
  | workflow runID phase status =>
    refine ⟨_, rfl, ?_⟩
    by_cases h : phase = "completed" ∨ phase = "failed" ∨ phase = "canceled"
    · simp only [if_pos h]
      rfl
    · simp only [if_neg h]
      rfl
  | childRunLinked runID childAgentID childRunID toolCallID =>
    cases tr with
    | some tc => exact ⟨_, rfl, rfl⟩
    | none => exact ⟨_, rfl, rfl⟩
  | usage runID modelName inputTokens outputTokens totalTokens =>
    exact ⟨_, rfl, rfl⟩
  | other runID => exact ⟨_, rfl, rfl⟩

/-- C5: retry schedule of the dispatcher. With serialization succeeding
and the timeout never firing: if every attempt fails the dispatcher
performs exactly 4 attempts (1 initial + 3 retries) with waits of 1, 2
and 4 time-units between them and then drops the payload (the dropped
result is what `SendAsync` logs); if attempt `k` (`k ≤ 3`) is the first
to succeed it performs exactly `k + 1` attempts and only the first `k`
waits; a payload-serialization failure is returned immediately with no
delivery attempt and no wait. -/
theorem sendWithRetry_schedule :
    (∀ sendOk canceled : Nat → Bool,
       (∀ n, canceled n = false) →
       (∀ n, n ≤ maxRetries → sendOk n = false) →
       sendWithRetry true sendOk canceled = SendResult.dropped 4 [1, 2, 4]) ∧
    (∀ sendOk canceled : Nat → Bool, ∀ k,
       (∀ n, canceled n = false) →
       k ≤ maxRetries →
       (∀ j, j < k → sendOk j = false) →
       sendOk k = true →
       sendWithRetry true sendOk canceled =
         SendResult.delivered (k + 1) (List.take k [1, 2, 4])) ∧
    (∀ sendOk canceled : Nat → Bool,
       sendWithRetry false sendOk canceled = SendResult.serializationError) := by
  refine ⟨?_, ?_, ?_⟩
  · intro sendOk canceled hC hS
    have h0 := hS 0 (by norm_num [maxRetries])
    have h1 := hS 1 (by norm_num [maxRetries])
    have h2 := hS 2 (by norm_num [maxRetries])
    have h3 := hS 3 (by norm_num [maxRetries])
    simp [sendWithRetry, maxRetries, retryLoop, hC, h0, h1, h2, h3]
  · intro sendOk canceled k hC hk hFail hOk
    have hk3 : k ≤ 3 := hk
    clear hk
    interval_cases k
    · simp [sendWithRetry, maxRetries, retryLoop, hC, hOk]
    · have h0 := hFail 0 (by norm_num)
      simp [sendWithRetry, maxRetries, retryLoop, hC, h0, hOk]
    · have h0 := hFail 0 (by norm_num)
      have h1 := hFail 1 (by norm_num)
      simp [sendWithRetry, maxRetries, retryLoop, hC, h0, h1, hOk]
    · have h0 := hFail 0 (by norm_num)
      have h1 := hFail 1 (by norm_num)
      have h2 := hFail 2 (by norm_num)
      simp [sendWithRetry, maxRetries, retryLoop, hC, h0, h1, h2, hOk]
  · intro sendOk canceled
    rfl

/-- C5 witness: a run in which every attempt fails takes 4 attempts and
waits 1, 2, 4; a run whose second attempt succeeds takes 2 attempts and
one wait; a marshal failure performs no attempt. -/
theorem sendWithRetry_schedule_witness :
    ((∀ n, (fun _ : Nat => false) n = false) ∧
     (∀ n, n ≤ maxRetries → (fun _ : Nat => false) n = false) ∧
     sendWithRetry true (fun _ => false) (fun _ => false) =
       SendResult.dropped 4 [1, 2, 4]) ∧
    ((1 : Nat) ≤ maxRetries ∧
     (∀ j, j < 1 → (fun n : Nat => n == 1) j = false) ∧
     (fun n : Nat => n == 1) 1 = true ∧
     sendWithRetry true (fun n => n == 1) (fun _ => false) =
       SendResult.delivered 2 (List.take 1 [1, 2, 4])) ∧
    sendWithRetry false (fun _ => true) (fun _ => false) =
      SendResult.serializationError := by
  refine ⟨⟨fun n => rfl, fun n _ => rfl, ?_⟩,
          ⟨by norm_num [maxRetries], ?_, rfl, ?_⟩, ?_⟩
  · exact sendWithRetry_schedule.1 (fun _ => false) (fun _ => false)
      (fun n => rfl) (fun n _ => rfl)
  · decide
  · exact sendWithRetry_schedule.2.1 (fun n => n == 1) (fun _ => false) 1
      (fun n => rfl) (by norm_num [maxRetries]) (by decide) rfl
  · exact sendWithRetry_schedule.2.2 (fun _ => true) (fun _ => false)

/-- C8: in every payload built by the call-capturing decorator — one-shot
`Complete` and streamed `Close` alike — `totalTokenCount` is exactly
`inputTokenCount + outputTokenCount`; the cache token counts are carried
in their own fields and are never added into the total. -/
theorem payload_total_is_input_plus_output :
    (∀ modelID agentID provider reqModel ctx startStr endStr durationMs resp
       p,
       (meteringComplete modelID agentID provider reqModel ctx startStr
         endStr durationMs (Except.ok resp)).2 = some p →
       p.TotalTokenCount = p.InputTokenCount + p.OutputTokenCount ∧
       p.InputTokenCount = resp.Usage.InputTokens ∧
       p.OutputTokenCount = resp.Usage.OutputTokens ∧
       p.CacheReadTokenCount = resp.Usage.CacheReadTokens ∧
       p.CacheCreationTokenCount = resp.Usage.CacheWriteTokens) ∧
    (∀ modelID agentID provider ctx startStr endStr durationMs acc innerErr
       p,
       (streamClose modelID agentID provider ctx startStr endStr durationMs
         acc innerErr).2 = some p →
       p.TotalTokenCount = p.InputTokenCount + p.OutputTokenCount ∧
       p.InputTokenCount = acc.usage.InputTokens ∧
       p.OutputTokenCount = acc.usage.OutputTokens) := by
  constructor
  · intro modelID agentID provider reqModel ctx startStr endStr durationMs
      resp p hp
    obtain ⟨tr⟩ := ctx
    cases tr with
    | some tc =>
      simp only [meteringComplete, stampTraceContext, GetTraceContext,
        Option.some.injEq] at hp
      subst hp
      simp
    | none =>
      simp only [meteringComplete, stampTraceContext, GetTraceContext,
        Option.some.injEq] at hp
      subst hp
      simp
  · intro modelID agentID provider ctx startStr endStr durationMs acc
      innerErr p hp
    obtain ⟨tr⟩ := ctx
    unfold streamClose at hp
    by_cases h : acc.usage.InputTokens > 0 ∨ acc.usage.OutputTokens > 0
    · rw [if_pos h] at hp
      cases tr with
      | some tc =>
        simp only [stampTraceContext, GetTraceContext, Option.some.injEq] at hp
        subst hp
        simp
      | none =>
        simp only [stampTraceContext, GetTraceContext, Option.some.injEq] at hp
        subst hp
        simp
    · rw [if_neg h] at hp
      simp at hp

/-- The payload produced by a sample one-shot call with 7 input, 4 output
and nonzero cache token counts. -/
def sampleCompletePayload : MeteringPayload :=
  ((meteringComplete "m" "a" "p" "" ⟨none⟩ "s" "e" 5
    (Except.ok ⟨⟨7, 4, 11, 100, 200⟩, "stop"⟩)).2).getD {}

/-- The payload produced by closing a sample stream that accumulated
10 input and 8 output tokens. -/
def sampleStreamPayload : MeteringPayload :=
  ((streamClose "m" "a" "p" ⟨none⟩ "s" "e" 5 ⟨⟨10, 8, 18, 0, 0⟩, "stop"⟩
    none).2).getD {}

/-- C8 witness: concrete one-shot and streamed payloads whose totals are
the sum of the input and output counts, with nonzero cache counters kept
out of the total. -/
theorem payload_total_is_input_plus_output_witness :
    ((meteringComplete "m" "a" "p" "" ⟨none⟩ "s" "e" 5
        (Except.ok ⟨⟨7, 4, 11, 100, 200⟩, "stop"⟩)).2 =
      some sampleCompletePayload ∧
     sampleCompletePayload.TotalTokenCount =
       sampleCompletePayload.InputTokenCount +
         sampleCompletePayload.OutputTokenCount ∧
     sampleCompletePayload.InputTokenCount = 7 ∧
     sampleCompletePayload.OutputTokenCount = 4 ∧
     sampleCompletePayload.CacheReadTokenCount = 100 ∧
     sampleCompletePayload.CacheCreationTokenCount = 200) ∧
    ((streamClose "m" "a" "p" ⟨none⟩ "s" "e" 5 ⟨⟨10, 8, 18, 0, 0⟩, "stop"⟩
        none).2 = some sampleStreamPayload ∧
     sampleStreamPayload.TotalTokenCount =
       sampleStreamPayload.InputTokenCount +
         sampleStreamPayload.OutputTokenCount ∧
     sampleStreamPayload.InputTokenCount = 10 ∧
     sampleStreamPayload.OutputTokenCount = 8) := by
  have h1 := payload_total_is_input_plus_output.1 "m" "a" "p" "" ⟨none⟩ "s"
    "e" 5 ⟨⟨7, 4, 11, 100, 200⟩, "stop"⟩ sampleCompletePayload rfl
  have h2 := payload_total_is_input_plus_output.2 "m" "a" "p" ⟨none⟩ "s" "e" 5
    ⟨⟨10, 8, 18, 0, 0⟩, "stop"⟩ none sampleStreamPayload rfl
  refine ⟨⟨rfl, h1.1, ?_, ?_, h1.2.2.2.1, h1.2.2.2.2⟩,
          ⟨rfl, h2.1, ?_, ?_⟩⟩
  · rw [h1.2.1]
  · rw [h1.2.2.1]
  · rw [h2.2.1]
  · rw [h2.2.2]

/-- Input-token delta carried by one chunk (0 when it has no usage
delta). -/
def deltaIn (c : Chunk) : Int :=
  match c.UsageDelta with
  | some d => d.InputTokens
  | none => 0

/-- Output-token delta carried by one chunk (0 when it has no usage
delta). -/
def deltaOut (c : Chunk) : Int :=
  match c.UsageDelta with
  | some d => d.OutputTokens
  | none => 0

/-- The last non-empty stop reason of a chunk sequence, or `""` when
every chunk's stop reason is empty. -/
def lastStopReason (cs : List Chunk) : String :=
  (((cs.map Chunk.StopReason).reverse).find? (fun r => !(r == ""))).getD ""

/-- One `Recv` step sets the stop reason to the chunk's when non-empty,
else keeps the old one. -/
theorem recvStep_stopReason (s : StreamAcc) (c : Chunk) :
    (recvStep s c).stopReason =
      if c.StopReason ≠ "" then c.StopReason else s.stopReason := by
  obtain ⟨u, r⟩ := c
  cases u <;> by_cases h : r ≠ "" <;> simp [recvStep, h]

/-- One `Recv` step adds the chunk's input delta to the input counter. -/
theorem recvStep_inputTokens (s : StreamAcc) (c : Chunk) :
    (recvStep s c).usage.InputTokens = s.usage.InputTokens + deltaIn c := by
  obtain ⟨u, r⟩ := c
  cases u <;> by_cases h : r ≠ "" <;> simp [recvStep, deltaIn, h]

/-- One `Recv` step adds the chunk's output delta to the output
counter. -/
theorem recvStep_outputTokens (s : StreamAcc) (c : Chunk) :
    (recvStep s c).usage.OutputTokens = s.usage.OutputTokens + deltaOut c := by
  obtain ⟨u, r⟩ := c
  cases u <;> by_cases h : r ≠ "" <;> simp [recvStep, deltaOut, h]

/-- Receiving a chunk sequence adds the sum of the input deltas. -/
theorem foldl_recvStep_inputTokens (cs : List Chunk) : ∀ s : StreamAcc,
    (cs.foldl recvStep s).usage.InputTokens =
      s.usage.InputTokens + (cs.map deltaIn).sum := by
  induction cs with
  | nil => intro s; simp
  | cons c cs ih =>
    intro s
    simp [List.foldl_cons, ih, recvStep_inputTokens, add_assoc]

/-- Receiving a chunk sequence adds the sum of the output deltas. -/
theorem foldl_recvStep_outputTokens (cs : List Chunk) : ∀ s : StreamAcc,
    (cs.foldl recvStep s).usage.OutputTokens =
      s.usage.OutputTokens + (cs.map deltaOut).sum := by
  induction cs with
  | nil => intro s; simp
  | cons c cs ih =>
    intro s
    simp [List.foldl_cons, ih, recvStep_outputTokens, add_assoc]

/-- Receiving a chunk sequence retains the last non-empty stop reason,
falling back to the initial one. -/
theorem foldl_recvStep_stopReason (cs : List Chunk) : ∀ s : StreamAcc,
    (cs.foldl recvStep s).stopReason =
      (((cs.map Chunk.StopReason).reverse).find?
        (fun r => !(r == ""))).getD s.stopReason := by
  induction cs with
  | nil => intro s; simp
  | cons c cs ih =>
    intro s
    simp only [List.foldl_cons, List.map_cons, List.reverse_cons,
      List.find?_append, ih]
    cases hf : ((cs.map Chunk.StopReason).reverse).find? (fun r => !(r == ""))
      with
    | some v => simp [Option.or, hf]
    | none =>
      simp only [hf, Option.or, recvStep_stopReason]
      by_cases h : c.StopReason = ""
      · simp [List.find?, h]
      · have hb : (c.StopReason == "") = false := beq_eq_false_iff_ne.mpr h
        simp [List.find?, h, hb]

/-- Stamping the trace context onto a payload leaves the token counters
and the stop reason untouched. -/
theorem stampTraceContext_tokens (ctx : Ctx) (p : MeteringPayload) :
    (stampTraceContext ctx p).InputTokenCount = p.InputTokenCount ∧
    (stampTraceContext ctx p).OutputTokenCount = p.OutputTokenCount ∧
    (stampTraceContext ctx p).TotalTokenCount = p.TotalTokenCount ∧
    (stampTraceContext ctx p).StopReason = p.StopReason := by
  obtain ⟨tr⟩ := ctx
  cases tr <;> simp [stampTraceContext, GetTraceContext]

/-- C6: the stream decorator accumulates the per-chunk input/output
usage deltas and retains the last non-empty stop reason; for chunk
sequences with non-negative deltas, `Close` submits exactly one payload
whose input/output counts are the accumulated sums and whose total is
their sum — unless both accumulated counts are zero, in which case no
payload is submitted at all. -/
theorem stream_accumulates_and_submits_once (cs : List Chunk)
    (hNN : ∀ c ∈ cs, 0 ≤ deltaIn c ∧ 0 ≤ deltaOut c) :
    (recvAll cs).usage.InputTokens = (cs.map deltaIn).sum ∧
    (recvAll cs).usage.OutputTokens = (cs.map deltaOut).sum ∧
    (recvAll cs).stopReason = lastStopReason cs ∧
    ∀ modelID agentID provider ctx startStr endStr durationMs innerErr,
      ((cs.map deltaIn).sum = 0 ∧ (cs.map deltaOut).sum = 0 →
        (streamClose modelID agentID provider ctx startStr endStr durationMs
          (recvAll cs) innerErr).2 = none) ∧
      (¬((cs.map deltaIn).sum = 0 ∧ (cs.map deltaOut).sum = 0) →
        ∃ p,
          (streamClose modelID agentID provider ctx startStr endStr
            durationMs (recvAll cs) innerErr).2 = some p ∧
          p.InputTokenCount = (cs.map deltaIn).sum ∧
          p.OutputTokenCount = (cs.map deltaOut).sum ∧
          p.TotalTokenCount = (cs.map deltaIn).sum + (cs.map deltaOut).sum ∧
          p.StopReason = MapStopReason (lastStopReason cs)) := by
  have hIn : (recvAll cs).usage.InputTokens = (cs.map deltaIn).sum := by
    simpa [recvAll] using foldl_recvStep_inputTokens cs {}
  have hOut : (recvAll cs).usage.OutputTokens = (cs.map deltaOut).sum := by
    simpa [recvAll] using foldl_recvStep_outputTokens cs {}
  have hStop : (recvAll cs).stopReason = lastStopReason cs := by
    simpa [recvAll, lastStopReason] using foldl_recvStep_stopReason cs {}
  have hInNN : 0 ≤ (cs.map deltaIn).sum := by
    refine List.sum_nonneg ?_
    intro x hx
    obtain ⟨c, hc, rfl⟩ := List.mem_map.mp hx
    exact (hNN c hc).1
  have hOutNN : 0 ≤ (cs.map deltaOut).sum := by
    refine List.sum_nonneg ?_
    intro x hx
    obtain ⟨c, hc, rfl⟩ := List.mem_map.mp hx
    exact (hNN c hc).2
  refine ⟨hIn, hOut, hStop, ?_⟩
  intro modelID agentID provider ctx startStr endStr durationMs innerErr
  constructor
  · rintro ⟨h1, h2⟩
    have hcond : ¬((recvAll cs).usage.InputTokens > 0 ∨
        (recvAll cs).usage.OutputTokens > 0) := by
      rw [hIn, hOut, h1, h2]
      simp
    simp [streamClose, hcond]
  · intro hne
    have hcond : (recvAll cs).usage.InputTokens > 0 ∨
        (recvAll cs).usage.OutputTokens > 0 := by
      rw [hIn, hOut]
      omega
    simp only [streamClose, if_pos hcond]
    refine ⟨_, rfl, ?_, ?_, ?_, ?_⟩
    · rw [(stampTraceContext_tokens ctx _).1]
      exact hIn
    · rw [(stampTraceContext_tokens ctx _).2.1]
      exact hOut
    · rw [(stampTraceContext_tokens ctx _).2.2.1]
      rw [show ((recvAll cs).usage.InputTokens + (recvAll cs).usage.OutputTokens
        = (cs.map deltaIn).sum + (cs.map deltaOut).sum) from by rw [hIn, hOut]]
    · rw [(stampTraceContext_tokens ctx _).2.2.2]
      rw [show (MapStopReason (recvAll cs).stopReason
        = MapStopReason (lastStopReason cs)) from by rw [hStop]]

/-- The spec's example chunk sequence: usage deltas
`[(10,0),(0,5),(0,3)]`, the last chunk carrying the terminal stop
reason. -/
def exampleChunks : List Chunk :=
  [⟨some { InputTokens := 10 }, ""⟩,
   ⟨some { OutputTokens := 5 }, ""⟩,
   ⟨some { OutputTokens := 3 }, "stop"⟩]

/-- C6 witness: on the spec's example deltas the accumulator reads
(10, 8), the close payload reports 10/8/18, and an empty stream submits
nothing. -/
theorem stream_accumulates_and_submits_once_witness :
    ((∀ c ∈ exampleChunks, 0 ≤ deltaIn c ∧ 0 ≤ deltaOut c) ∧
     (recvAll exampleChunks).usage.InputTokens =
       (exampleChunks.map deltaIn).sum ∧
     (recvAll exampleChunks).usage.OutputTokens =
       (exampleChunks.map deltaOut).sum ∧
     (recvAll exampleChunks).stopReason = lastStopReason exampleChunks ∧
     ∀ modelID agentID provider ctx startStr endStr durationMs innerErr,
       (((exampleChunks.map deltaIn).sum = 0 ∧
          (exampleChunks.map deltaOut).sum = 0 →
         (streamClose modelID agentID provider ctx startStr endStr durationMs
           (recvAll exampleChunks) innerErr).2 = none) ∧
        (¬((exampleChunks.map deltaIn).sum = 0 ∧
            (exampleChunks.map deltaOut).sum = 0) →
          ∃ p,
            (streamClose modelID agentID provider ctx startStr endStr
              durationMs (recvAll exampleChunks) innerErr).2 = some p ∧
            p.InputTokenCount = (exampleChunks.map deltaIn).sum ∧
            p.OutputTokenCount = (exampleChunks.map deltaOut).sum ∧
            p.TotalTokenCount =
              (exampleChunks.map deltaIn).sum +
                (exampleChunks.map deltaOut).sum ∧
            p.StopReason = MapStopReason (lastStopReason exampleChunks)))) ∧
    (exampleChunks.map deltaIn).sum = 10 ∧
    (exampleChunks.map deltaOut).sum = 8 ∧
    (exampleChunks.map deltaIn).sum + (exampleChunks.map deltaOut).sum = 18 ∧
    (streamClose "m" "a" "p" ⟨none⟩ "s" "e" 0 (recvAll []) none).2 = none :=
  ⟨⟨by decide, stream_accumulates_and_submits_once exampleChunks (by decide)⟩,
   by decide, by decide, by decide, by decide⟩

/-- C9: when the ambient context already carries a TraceContext with a
non-empty TraceID, resolution builds a new TraceContext inheriting that
TraceID and TraceName, sets ParentTransactionID = ParentRunID exactly
when the run is a child, registers `(RunID → inherited TraceID)`, and
attaches the resulting TraceContext to the ambient context. -/
theorem ensureTraceContext_inherits_ambient
    (freshA freshB cfgSquad agentID : String) (ctx : Ctx) (m : Meter)
    (rc : RunCtx) (ex : TraceContext) (hctx : ctx.trace = some ex)
    (hex : ex.traceID ≠ "") :
    ∃ tc,
      (ensureTraceContext freshA freshB cfgSquad agentID ctx m rc).1.trace =
        some tc ∧
      tc.traceID = ex.traceID ∧
      tc.traceName = ex.traceName ∧
      tc.transactionID = rc.RunID ∧
      tc.parentTxnID = (if rc.ParentRunID ≠ "" then rc.ParentRunID else "") ∧
      (ensureTraceContext freshA freshB cfgSquad agentID ctx m
        rc).2.LookupTrace rc.RunID = some ex.traceID := by
  have hg : GetTraceContext ctx = some ex := hctx
  simp only [ensureTraceContext, hg]
  rw [if_pos hex]
  by_cases hp : rc.ParentRunID = ""
  · rw [if_neg (by simp [hp])]
    refine ⟨{ traceID := ex.traceID, traceName := ex.traceName,
              traceType := "agent", transactionID := rc.RunID,
              parentTxnID := "",
              squad := ResolveSquad cfgSquad agentID },
      ?_, rfl, rfl, rfl, by simp [hp], ?_⟩
    · simp [WithTraceContext, hex]
    · exact lookupTrace_registerTrace_self m rc.RunID ex.traceID
  · rw [if_pos hp]
    refine ⟨{ traceID := ex.traceID, traceName := ex.traceName,
              traceType := "agent", transactionID := rc.RunID,
              parentTxnID := rc.ParentRunID,
              squad := ResolveSquad cfgSquad agentID },
      ?_, rfl, rfl, rfl, by simp [hp], ?_⟩
    · simp [WithTraceContext, hex]
    · exact lookupTrace_registerTrace_self m rc.RunID ex.traceID

/-- C9 witness: a resumed child run inside an ambient trace `T1` inherits
`T1`, records its parent transaction, and registers itself. -/
theorem ensureTraceContext_inherits_ambient_witness :
    ((⟨some { traceID := "T1", traceName := "N1" }⟩ : Ctx).trace =
      some { traceID := "T1", traceName := "N1" } ∧
     ({ traceID := "T1", traceName := "N1" } : TraceContext).traceID ≠ "") ∧
    ∃ tc,
      (ensureTraceContext "FA" "FB" "" "demo.assistant"
        ⟨some { traceID := "T1", traceName := "N1" }⟩ ({} : Meter)
        ⟨"run-child", "run-parent"⟩).1.trace = some tc ∧
      tc.traceID = ({ traceID := "T1", traceName := "N1" } :
        TraceContext).traceID ∧
      tc.traceName = ({ traceID := "T1", traceName := "N1" } :
        TraceContext).traceName ∧
      tc.transactionID = (⟨"run-child", "run-parent"⟩ : RunCtx).RunID ∧
      tc.parentTxnID =
        (if (⟨"run-child", "run-parent"⟩ : RunCtx).ParentRunID ≠ ""
         then (⟨"run-child", "run-parent"⟩ : RunCtx).ParentRunID else "") ∧
      (ensureTraceContext "FA" "FB" "" "demo.assistant"
        ⟨some { traceID := "T1", traceName := "N1" }⟩ ({} : Meter)
        ⟨"run-child", "run-parent"⟩).2.LookupTrace
          (⟨"run-child", "run-parent"⟩ : RunCtx).RunID =
        some ({ traceID := "T1", traceName := "N1" } : TraceContext).traceID :=
  ⟨⟨rfl, by decide⟩,
   ensureTraceContext_inherits_ambient "FA" "FB" "" "demo.assistant"
     ⟨some { traceID := "T1", traceName := "N1" }⟩ ({} : Meter)
     ⟨"run-child", "run-parent"⟩ { traceID := "T1", traceName := "N1" } rfl
     (by decide)⟩

/-- C1: a child run resolving with no usable ambient TraceContext whose
parent is already registered inherits the parent's registered traceID,
sets ParentTransactionID to the parent's run ID, and registers
`(child RunID → that traceID)`. -/
theorem ensureTraceContext_child_inherits_parent
    (freshA freshB cfgSquad agentID : String) (ctx : Ctx) (m : Meter)
    (rc : RunCtx) (ptid : String)
    (hamb : ∀ ex, ctx.trace = some ex → ex.traceID = "")
    (hchild : rc.ParentRunID ≠ "")
    (hlook : m.LookupTrace rc.ParentRunID = some ptid)
    (hptid : ptid ≠ "") :
    ∃ tc,
      (ensureTraceContext freshA freshB cfgSquad agentID ctx m rc).1.trace =
        some tc ∧
      tc.traceID = ptid ∧
      tc.parentTxnID = rc.ParentRunID ∧
      (ensureTraceContext freshA freshB cfgSquad agentID ctx m
        rc).2.LookupTrace rc.RunID = some ptid := by
  have htail : ∀ tc0 : TraceContext,
      ensureTraceContextTail freshA freshB ctx m rc tc0 =
        (WithTraceContext freshB ctx
          { tc0 with traceID := ptid, parentTxnID := rc.ParentRunID },
         m.RegisterTrace rc.RunID ptid) := by
    intro tc0
    simp only [ensureTraceContextTail, if_neg hchild, hlook]
  cases hc : ctx.trace with
  | none =>
    simp only [ensureTraceContext, GetTraceContext, hc, htail]
    exact ⟨{ traceID := ptid, traceName := "", traceType := "agent",
             transactionID := rc.RunID, parentTxnID := rc.ParentRunID,
             squad := ResolveSquad cfgSquad agentID },
      by simp [WithTraceContext, hptid], rfl, rfl,
      lookupTrace_registerTrace_self m rc.RunID ptid⟩
  | some ex =>
    have hempty : ex.traceID = "" := hamb ex hc
    simp only [ensureTraceContext, GetTraceContext, hc]
    rw [if_neg (by simp [hempty]), htail]
    exact ⟨{ traceID := ptid, traceName := "", traceType := "agent",
             transactionID := rc.RunID, parentTxnID := rc.ParentRunID,
             squad := ResolveSquad cfgSquad agentID },
      by simp [WithTraceContext, hptid], rfl, rfl,
      lookupTrace_registerTrace_self m rc.RunID ptid⟩

/-- C1 witness: with parent `run-parent` registered under trace `T1`, a
child run with empty ambient context resolves to `T1` and is itself
registered under `T1`. -/
theorem ensureTraceContext_child_inherits_parent_witness :
    ((∀ ex, (⟨none⟩ : Ctx).trace = some ex → ex.traceID = "") ∧
     (⟨"run-child", "run-parent"⟩ : RunCtx).ParentRunID ≠ "" ∧
     (Meter.RegisterTrace {} "run-parent" "T1").LookupTrace "run-parent" =
       some "T1" ∧
     ("T1" : String) ≠ "") ∧
    ∃ tc,
      (ensureTraceContext "FA" "FB" "" "demo.assistant" ⟨none⟩
        (Meter.RegisterTrace {} "run-parent" "T1")
        ⟨"run-child", "run-parent"⟩).1.trace = some tc ∧
      tc.traceID = "T1" ∧
      tc.parentTxnID = (⟨"run-child", "run-parent"⟩ : RunCtx).ParentRunID ∧
      (ensureTraceContext "FA" "FB" "" "demo.assistant" ⟨none⟩
        (Meter.RegisterTrace {} "run-parent" "T1")
        ⟨"run-child", "run-parent"⟩).2.LookupTrace
          (⟨"run-child", "run-parent"⟩ : RunCtx).RunID = some "T1" :=
  ⟨⟨(fun ex h => nomatch h), by decide, by decide, by decide⟩,
   ensureTraceContext_child_inherits_parent "FA" "FB" "" "demo.assistant"
     ⟨none⟩ (Meter.RegisterTrace {} "run-parent" "T1")
     ⟨"run-child", "run-parent"⟩ "T1" (fun ex h => nomatch h) (by decide)
     (by decide) (by decide)⟩

/-- C2: a child run resolving with no usable ambient TraceContext and an
unregistered parent still resolves without an error path: it takes the
freshly minted TraceID, emits a warning-level diagnostic, sets
ParentTransactionID to the parent's run ID, and registers
`(child RunID → new TraceID)` anyway. -/
theorem ensureTraceContext_child_fallback
    (freshA freshB cfgSquad agentID : String) (ctx : Ctx) (m : Meter)
    (rc : RunCtx)
    (hamb : ∀ ex, ctx.trace = some ex → ex.traceID = "")
    (hchild : rc.ParentRunID ≠ "")
    (hlook : m.LookupTrace rc.ParentRunID = none)
    (hfresh : freshA ≠ "") :
    ∃ tc,
      (ensureTraceContext freshA freshB cfgSquad agentID ctx m rc).1.trace =
        some tc ∧
      tc.traceID = freshA ∧
      tc.parentTxnID = rc.ParentRunID ∧
      (ensureTraceContext freshA freshB cfgSquad agentID ctx m
        rc).2.LookupTrace rc.RunID = some freshA ∧
      (∃ entry ∈ (ensureTraceContext freshA freshB cfgSquad agentID ctx m
        rc).2.log, entry.level = LogLevel.warn) := by
  have htail : ∀ tc0 : TraceContext,
      ensureTraceContextTail freshA freshB ctx m rc tc0 =
        (WithTraceContext freshB ctx
          { tc0 with traceID := freshA, parentTxnID := rc.ParentRunID },
         (m.logWarn ("parent trace not found for run=" ++ rc.RunID ++
           " parent=" ++ rc.ParentRunID ++
           ", generating new traceID")).RegisterTrace rc.RunID freshA) := by
    intro tc0
    simp only [ensureTraceContextTail, if_neg hchild, hlook]
  have hwarn : ∃ entry ∈ ((m.logWarn ("parent trace not found for run=" ++
      rc.RunID ++ " parent=" ++ rc.ParentRunID ++
      ", generating new traceID")).RegisterTrace rc.RunID freshA).log,
      entry.level = LogLevel.warn := by
    refine ⟨⟨LogLevel.warn, "parent trace not found for run=" ++ rc.RunID ++
      " parent=" ++ rc.ParentRunID ++ ", generating new traceID"⟩, ?_, rfl⟩
    simp [Meter.RegisterTrace, Meter.logWarn]
  cases hc : ctx.trace with
  | none =>
    simp only [ensureTraceContext, GetTraceContext, hc, htail]
    exact ⟨{ traceID := freshA, traceName := "", traceType := "agent",
             transactionID := rc.RunID, parentTxnID := rc.ParentRunID,
             squad := ResolveSquad cfgSquad agentID },
      by simp [WithTraceContext, hfresh], rfl, rfl,
      lookupTrace_registerTrace_self _ rc.RunID freshA, hwarn⟩
  | some ex =>
    have hempty : ex.traceID = "" := hamb ex hc
    simp only [ensureTraceContext, GetTraceContext, hc]
    rw [if_neg (by simp [hempty]), htail]
    exact ⟨{ traceID := freshA, traceName := "", traceType := "agent",
             transactionID := rc.RunID, parentTxnID := rc.ParentRunID,
             squad := ResolveSquad cfgSquad agentID },
      by simp [WithTraceContext, hfresh], rfl, rfl,
      lookupTrace_registerTrace_self _ rc.RunID freshA, hwarn⟩

/-- C2 witness: a child whose parent `run-parent` was never registered
resolves to the freshly minted `FA`, registers it, and a warning is in
the log. -/
theorem ensureTraceContext_child_fallback_witness :
    ((∀ ex, (⟨none⟩ : Ctx).trace = some ex → ex.traceID = "") ∧
     (⟨"run-child", "run-parent"⟩ : RunCtx).ParentRunID ≠ "" ∧
     ({} : Meter).LookupTrace "run-parent" = none ∧
     ("FA" : String) ≠ "") ∧
    ∃ tc,
      (ensureTraceContext "FA" "FB" "" "demo.assistant" ⟨none⟩ ({} : Meter)
        ⟨"run-child", "run-parent"⟩).1.trace = some tc ∧
      tc.traceID = "FA" ∧
      tc.parentTxnID = (⟨"run-child", "run-parent"⟩ : RunCtx).ParentRunID ∧
      (ensureTraceContext "FA" "FB" "" "demo.assistant" ⟨none⟩ ({} : Meter)
        ⟨"run-child", "run-parent"⟩).2.LookupTrace
          (⟨"run-child", "run-parent"⟩ : RunCtx).RunID = some "FA" ∧
      (∃ entry ∈ (ensureTraceContext "FA" "FB" "" "demo.assistant" ⟨none⟩
        ({} : Meter) ⟨"run-child", "run-parent"⟩).2.log,
        entry.level = LogLevel.warn) :=
  ⟨⟨(fun ex h => nomatch h), by decide, by decide, by decide⟩,
   ensureTraceContext_child_fallback "FA" "FB" "" "demo.assistant" ⟨none⟩
     ({} : Meter) ⟨"run-child", "run-parent"⟩ (fun ex h => nomatch h)
     (by decide) (by decide) (by decide)⟩

end Revenium
